import Mathlib

/-!
Shallow embedding of `src/behave_toolkit/behave_command.py`
(mixxorz/behave-sublime-toolkit).

The plugin's only logic lives in `BehaveCommand` (command resolution,
working-directory selection, process launch with optional streaming) and
`StreamerThread` (forwarding subprocess stdout lines to a panel-append
callback).  Host-editor collaborators (`sublime.load_settings`,
`view.settings()`, `shutil.which`, `window.folders()`, `view.file_name()`,
`sublime.ok_cancel_dialog`, `webbrowser.open`) are modelled as fields of
explicit environment records, and UI side effects are recorded as an event
trace.  The subprocess itself is modelled by the finite sequence of stdout
lines it produces (each line carrying its own terminator, exactly as Python
text-mode line iteration yields them).  Exceptions raised by the Python code
become `Except.error` values.
-/

/-- UI side effects performed through the host editor, in the order the
Python code performs them: `sublime.status_message`,
`sublime.ok_cancel_dialog`, `webbrowser.open`, the `prompt_save_as` command,
and the output panel's `erase` and `append` (from `OutputPanelMixin`). -/
inductive Event
  | statusMessage (msg : String)
  | okCancelDialog (msg : String)
  | openUrl (url : String)
  | promptSaveAs
  | erase
  | append (text : String)
  deriving Repr, DecidableEq

/-- Failure modes of the embedded code.  The Python code raises bare
`Exception`s; the spec names them ToolNotFound and ToolConfigError.
`unboundLocal` models the `finally:` block of `_get_project_folder`
reading the local `file_path` when the `try:` body raised before
assigning it. -/
inductive BehaveError
  | toolNotFound (msg : String)
  | configError (msg : String) (stdout : String)
  | unboundLocal
  deriving Repr, DecidableEq

/-- Decidable equality for `Except`, so that concrete runs of the embedded
functions can be checked by `decide`. -/
instance {ε α : Type} [DecidableEq ε] [DecidableEq α] :
    DecidableEq (Except ε α) := fun x y =>
  match x, y with
  | Except.ok a, Except.ok b =>
    if h : a = b then Decidable.isTrue (congrArg Except.ok h)
    else Decidable.isFalse (fun hc => h (Except.ok.inj hc))
  | Except.error a, Except.error b =>
    if h : a = b then Decidable.isTrue (congrArg Except.error h)
    else Decidable.isFalse (fun hc => h (Except.error.inj hc))
  | Except.ok _, Except.error _ => Decidable.isFalse (fun hc => Except.noConfusion hc)
  | Except.error _, Except.ok _ => Decidable.isFalse (fun hc => Except.noConfusion hc)

/-- Message of line 54-55: `'behave could not be found. Is it installed?'`,
used both for `sublime.status_message` and the raised exception. -/
def behaveNotFoundMsg : String := "behave could not be found. Is it installed?"

/-- Dialog text of lines 81-89 (one Python string split over lines). -/
def folderDialogMsg : String :=
  "You either do not have a folder defined in your project, or you do not have a project open. Please open the folder that you would like to have Behave Toolkit working on. For now, we will use the folder of the current file.\n\nPlease hit OK to view the documentation on setting up your project."

/-- Documentation URL opened at line 90. -/
def docsUrl : String :=
  "http://behavetoolkit.readthedocs.io/en/latest/gettingstarted.html"

/-- Dialog text of lines 98-99. -/
def saveViewMsg : String := "Please save the current view before continuing."

/-- First member of the exception tuple raised at lines 137-138. -/
def configErrorMsg : String := "An error occurred while launching behave.\n"

/-- Boolean test that `pattern` is a prefix of the character list `cs`. -/
def charsPrefixOf : List Char → List Char → Bool
  | [], _ => true
  | _ :: _, [] => false
  | p :: ps, c :: cs => p == c && charsPrefixOf ps cs

/-- Embeds `re.match(pattern, s)` (line 135) viewed as a Bool: the pattern
`ConfigError` contains no regex metacharacters, and `re.match` anchors at
the start of the string only, so the call is a literal prefix test. -/
def re_match (pattern s : String) : Bool :=
  charsPrefixOf pattern.toList s.toList

/-- Embeds `os.path.split` (imported as `op_split`, used at line 104) for
POSIX separators, following the CPython `posixpath.split` algorithm:
split after the last slash, then strip trailing slashes from the head
unless the head consists only of slashes. -/
def op_split (p : String) : String × String :=
  let rev := p.toList.reverse
  let tailRev := rev.takeWhile (fun c => c ≠ '/')
  let headRev := rev.dropWhile (fun c => c ≠ '/')
  let headStripped :=
    if headRev.any (fun c => c ≠ '/') then headRev.dropWhile (fun c => c = '/')
    else headRev
  (String.mk headStripped.reverse, String.mk tailRev.reverse)

/-- Host state consulted by the `behave_command` property (lines 33-56):
the per-view setting, the global `BehaveToolkit.sublime-settings` value
(both lists of strings when set), and the result of `shutil.which('behave')`.
-/
structure ResolverEnv where
  viewBehaveCommand : Option (List String)
  globalBehaveCommand : Option (List String)
  whichBehave : Option String
  deriving Repr, DecidableEq

/-- Embeds line 41-42: `self.view.settings().get('behave_command',
settings.get('behave_command', None))` — the view-level value if set,
otherwise the global one. -/
def configuredCommand (env : ResolverEnv) : Option (List String) :=
  match env.viewBehaveCommand with
  | some v => some v
  | none => env.globalBehaveCommand

/-- Embeds the `behave_command` property (lines 33-56).  `if behave:` is
Python truthiness: only a set, non-empty list takes the configured branch;
an unset value or an empty list falls through to `shutil.which('behave')`.
On lookup failure the code shows a status message and raises. -/
def behave_command (env : ResolverEnv) :
    Except BehaveError (List String) × List Event :=
  match configuredCommand env with
  | some (c :: cs) => (Except.ok (c :: cs), [])
  | _ =>
    match env.whichBehave with
    | some path => (Except.ok [path], [])
    | none =>
      (Except.error (BehaveError.toolNotFound behaveNotFoundMsg),
       [Event.statusMessage behaveNotFoundMsg])

/-- Host state consulted by `_get_project_folder` (lines 58-105):
`self.view.window().folders()`, the active view's file path, and the
user's answer to the first ok/cancel dialog.  `fileName = none` models the
branch the source labels (lines 92-101) as the never-saved view:
`self.view.file_name()` raising `AttributeError`, so the local `file_path`
is never assigned. -/
structure FolderEnv where
  folders : List String
  fileName : Option String
  userConfirms : Bool
  deriving Repr, DecidableEq

/-- Embeds `_get_project_folder` (lines 58-105).  A non-empty folder list
returns its last element with no UI interaction.  Otherwise the informative
dialog is shown (and the documentation URL opened when the user hits OK),
then the active file's directory is returned via `op_split`.  In the
never-saved branch the save dialog and `prompt_save_as` run, after which
the `finally:` block reads the never-assigned local `file_path`, which
fails (modelled as `BehaveError.unboundLocal`). -/
def _get_project_folder (env : FolderEnv) :
    Except BehaveError String × List Event :=
  match env.folders.getLast? with
  | some f => (Except.ok f, [])
  | none =>
    match env.fileName with
    | some p =>
      (Except.ok (op_split p).1,
       Event.okCancelDialog folderDialogMsg ::
         (if env.userConfirms then [Event.openUrl docsUrl] else []))
    | none =>
      (Except.error BehaveError.unboundLocal,
       (Event.okCancelDialog folderDialogMsg ::
         (if env.userConfirms then [Event.openUrl docsUrl] else [])) ++
         [Event.okCancelDialog saveViewMsg, Event.promptSaveAs])

/-- Host and subprocess state for one `_launch_process` call:
the folder environment (consulted for `cwd` at line 126), the stdout line
sequence the spawned process produces (each line with its own terminator,
as text-mode iteration yields them), and `sublime.platform() == 'windows'`
(lines 116-120, which only set `startupinfo` and have no effect on the
returned text or the event trace). -/
structure LaunchEnv where
  folderEnv : FolderEnv
  producedLines : List String
  platformWindows : Bool
  deriving Repr, DecidableEq

/-- Embeds `_launch_process` (lines 107-141).  `Popen` evaluates
`self._get_project_folder()` first, so a failure there propagates before
anything else.  With `print_stream` the panel is erased and the
`StreamerThread` (lines 144-155) iterates the stdout stream to exhaustion,
appending each line with `end=''`; the subsequent `process.communicate()`
then reads only the residual, which is empty.  Without `print_stream`,
`communicate()` returns the full concatenation.  `re.match('ConfigError',
stdout)` then decides between raising and returning.  The `command`
argument is what `Popen` executes; the produced output is supplied by the
environment. -/
def _launch_process (env : LaunchEnv) (command : List String)
    (print_stream : Bool) : Except BehaveError String × List Event :=
  match _get_project_folder env.folderEnv with
  | (Except.error e, evs) => (Except.error e, evs)
  | (Except.ok _cwd, evs) =>
    (if re_match "ConfigError"
         (if print_stream then "" else String.join env.producedLines) then
       Except.error (BehaveError.configError configErrorMsg
         (if print_stream then "" else String.join env.producedLines))
     else
       Except.ok (if print_stream then "" else String.join env.producedLines),
     evs ++
       (if print_stream then
          Event.erase :: env.producedLines.map Event.append
        else []))

/-- Embeds lines 27-28: `tuple(self.behave_command) + tuple(arg for arg in
args if arg)` — the resolved base command followed by the truthy (here:
non-empty-string) extra arguments in order. -/
def buildCommand (base : List String) (args : List String) : List String :=
  base ++ args.filter (fun arg => arg ≠ "")

/-- Embeds the `behave` method (lines 21-31): resolve the base command
(its exception propagating), build the full command vector, and launch. -/
def behave (renv : ResolverEnv) (lenv : LaunchEnv) (args : List String)
    (print_stream : Bool) : Except BehaveError String × List Event :=
  match behave_command renv with
  | (Except.error e, evs) => (Except.error e, evs)
  | (Except.ok base, evs) =>
    ((_launch_process lenv (buildCommand base args) print_stream).1,
     evs ++ (_launch_process lenv (buildCommand base args) print_stream).2)

example : re_match "ConfigError" "ConfigError: bad config\n" = true := by decide
example : re_match "ConfigError" "" = false := by decide
example : op_split "/home/user/proj/feature.feature" =
    ("/home/user/proj", "feature.feature") := by decide
example : op_split "/foo" = ("/", "foo") := by decide
example : op_split "foo" = ("", "foo") := by decide
example : _get_project_folder ⟨["/a", "/b", "/c"], none, false⟩ =
    (Except.ok "/c", []) := by decide

/-- The empty residual string left after the streamer exhausts stdout does
not carry the `ConfigError` marker. -/
theorem re_match_nil : re_match "ConfigError" "" = false := by decide

/-- Working-directory selection never touches the output panel: its event
trace contains no `erase` and no `append`. -/
theorem folder_events_no_panel (env : FolderEnv) :
    Event.erase ∉ (_get_project_folder env).2 ∧
      ∀ s, Event.append s ∉ (_get_project_folder env).2 := by
  unfold _get_project_folder
  cases env.folders.getLast? with
  | some f => simp
  | none =>
    cases env.fileName with
    | some p => cases env.userConfirms <;> simp
    | none => cases env.userConfirms <;> simp

/-- Evaluation of `_launch_process` once working-directory selection has
succeeded: the returned text is the residual captured stdout (empty under
streaming, the full concatenation otherwise), checked against the
`ConfigError` marker, and the event trace extends the selector's by the
erase-then-append streaming events exactly when streaming is on. -/
theorem launch_eq (env : LaunchEnv) (command : List String) (ps : Bool)
    (d : String) (evs : List Event)
    (hf : _get_project_folder env.folderEnv = (Except.ok d, evs)) :
    _launch_process env command ps =
      (if re_match "ConfigError"
           (if ps then "" else String.join env.producedLines) then
         Except.error (BehaveError.configError configErrorMsg
           (if ps then "" else String.join env.producedLines))
       else
         Except.ok (if ps then "" else String.join env.producedLines),
       evs ++
         (if ps then Event.erase :: env.producedLines.map Event.append
          else [])) := by
  unfold _launch_process
  rw [hf]

/-- Claim C1 counterexample: with streaming enabled and a subprocess that
produces the single line `Scenario: A\n`, `_launch_process` returns the
empty string, not the concatenation of the produced lines — the
`StreamerThread` has already exhausted the stdout stream, so
`process.communicate()` sees nothing. -/
theorem c1_counterexample :
    (_launch_process ⟨⟨["/proj"], none, false⟩, ["Scenario: A\n"], false⟩
        ["behave"] true).1 = Except.ok "" ∧
      String.join ["Scenario: A\n"] = "Scenario: A\n" ∧
      ("" : String) ≠ "Scenario: A\n" := by decide

/-- Claim C1 (corrected): the string returned by `_launch_process` is the
residual captured stdout.  In the non-streaming case this is the full
concatenation of all produced lines (when the output does not carry the
`ConfigError` marker) and the append callback is never invoked; in the
streaming case the streamer thread has already exhausted the stream, so
the returned string is empty. -/
theorem c1_residual_output (env : LaunchEnv) (command : List String)
    (d : String) (evs : List Event)
    (hf : _get_project_folder env.folderEnv = (Except.ok d, evs))
    (hnc : re_match "ConfigError" (String.join env.producedLines) = false) :
    (_launch_process env command false).1 =
        Except.ok (String.join env.producedLines) ∧
      (∀ s, Event.append s ∉ (_launch_process env command false).2) ∧
      (_launch_process env command true).1 = Except.ok "" := by
  have hn := (folder_events_no_panel env.folderEnv).2
  rw [hf] at hn
  rw [launch_eq env command false d evs hf, launch_eq env command true d evs hf]
  refine ⟨by simp [hnc], ?_, by simp [re_match_nil]⟩
  simpa using hn

/-- Claim C1 witness: a concrete two-line run, non-streaming and streaming. -/
theorem c1_witness :
    (_launch_process ⟨⟨["/proj"], none, false⟩,
        ["Scenario: A\n", "Scenario: B\n"], false⟩ ["behave"] false).1 =
        Except.ok (String.join ["Scenario: A\n", "Scenario: B\n"]) ∧
      (∀ s, Event.append s ∉ (_launch_process ⟨⟨["/proj"], none, false⟩,
        ["Scenario: A\n", "Scenario: B\n"], false⟩ ["behave"] false).2) ∧
      (_launch_process ⟨⟨["/proj"], none, false⟩,
        ["Scenario: A\n", "Scenario: B\n"], false⟩ ["behave"] true).1 =
        Except.ok "" :=
  c1_residual_output _ ["behave"] "/proj" [] (by decide) (by decide)

/-- Claim C2: once the working directory is resolved, `_launch_process`
checks the captured stdout text (the value `process.communicate()`
returned) against the literal `ConfigError` prefix via `re.match`:
if it matches, the call fails with the tool-configuration error carrying
that captured text; otherwise the captured text is returned. -/
theorem c2_config_error_marker (env : LaunchEnv) (command : List String)
    (ps : Bool) (d : String) (evs : List Event)
    (hf : _get_project_folder env.folderEnv = (Except.ok d, evs)) :
    (re_match "ConfigError"
        (if ps then "" else String.join env.producedLines) = true →
      (_launch_process env command ps).1 =
        Except.error (BehaveError.configError configErrorMsg
          (if ps then "" else String.join env.producedLines))) ∧
      (re_match "ConfigError"
          (if ps then "" else String.join env.producedLines) = false →
        (_launch_process env command ps).1 =
          Except.ok (if ps then "" else String.join env.producedLines)) := by
  rw [launch_eq env command ps d evs hf]
  constructor <;> intro h <;> simp [h]

/-- Claim C2 witness: a subprocess writing `ConfigError: bad config\n`
makes the non-streaming launch fail with that text as detail. -/
theorem c2_witness :
    (_launch_process ⟨⟨["/proj"], none, false⟩,
        ["ConfigError: bad config\n"], false⟩ ["behave"] false).1 =
      Except.error (BehaveError.configError configErrorMsg
        "ConfigError: bad config\n") := by
  have h := (c2_config_error_marker ⟨⟨["/proj"], none, false⟩,
    ["ConfigError: bad config\n"], false⟩ ["behave"] false "/proj" []
    (by decide)).1 (by decide)
  simpa using h

/-- Claim C3 counterexample: a configured command vector that is present
but empty is falsy under Python's `if behave:`, so the resolver ignores it
and returns the PATH lookup result instead of the configured vector. -/
theorem c3_counterexample :
    configuredCommand
        ⟨some [], some ["/usr/bin/behave"], some "/usr/local/bin/behave"⟩ =
        some [] ∧
      (behave_command
        ⟨some [], some ["/usr/bin/behave"], some "/usr/local/bin/behave"⟩).1 =
        Except.ok ["/usr/local/bin/behave"] ∧
      (Except.ok ["/usr/local/bin/behave"] :
          Except BehaveError (List String)) ≠ Except.ok [] := by decide

/-- Claim C3 (corrected): when the configured command vector (view-level
override first, global setting otherwise) is present and non-empty, the
resolver returns exactly that vector with no side effects, regardless of
what `shutil.which` would find; a present-but-empty vector is treated as
unconfigured. -/
theorem c3_configured_verbatim (env : ResolverEnv) (c : String)
    (cs : List String) (h : configuredCommand env = some (c :: cs)) :
    behave_command env = (Except.ok (c :: cs), []) := by
  unfold behave_command
  rw [h]

/-- Claim C3 witness: the configured vector of the spec's example is
returned verbatim even though PATH holds a different executable. -/
theorem c3_witness :
    behave_command
        ⟨some ["/usr/bin/behave", "--no-color"], none,
         some "/usr/local/bin/behave"⟩ =
      (Except.ok ["/usr/bin/behave", "--no-color"], []) :=
  c3_configured_verbatim _ "/usr/bin/behave" ["--no-color"] (by decide)

/-- Claim C4: with no configured command at either level, the resolver
fails with the tool-not-found error and its only side effect is the
transient status message when `shutil.which` finds nothing; when the
executable is found it is returned as a single-element vector with no
side effects. -/
theorem c4_tool_not_found (env : ResolverEnv)
    (hv : env.viewBehaveCommand = none) (hg : env.globalBehaveCommand = none) :
    (env.whichBehave = none →
        behave_command env =
          (Except.error (BehaveError.toolNotFound behaveNotFoundMsg),
           [Event.statusMessage behaveNotFoundMsg])) ∧
      ∀ p, env.whichBehave = some p →
        behave_command env = (Except.ok [p], []) := by
  have hc : configuredCommand env = none := by
    unfold configuredCommand
    rw [hv, hg]
  constructor
  · intro hw
    unfold behave_command
    rw [hc, hw]
  · intro p hw
    unfold behave_command
    rw [hc, hw]

/-- Claim C4 witness: both the not-found and the found case at concrete
host states. -/
theorem c4_witness :
    behave_command ⟨none, none, none⟩ =
        (Except.error (BehaveError.toolNotFound behaveNotFoundMsg),
         [Event.statusMessage behaveNotFoundMsg]) ∧
      behave_command ⟨none, none, some "/usr/local/bin/behave"⟩ =
        (Except.ok ["/usr/local/bin/behave"], []) :=
  ⟨(c4_tool_not_found ⟨none, none, none⟩ rfl rfl).1 rfl,
   (c4_tool_not_found ⟨none, none, some "/usr/local/bin/behave"⟩ rfl rfl).2
     _ rfl⟩

/-- Claim C5: whenever the host reports at least one project folder, the
selector returns the last folder of the list with an empty event trace —
no dialog, no URL, no save prompt — and without consulting the active
file's path or the user's answer (both remain arbitrary in `env`). -/
theorem c5_last_folder (env : FolderEnv) (h : env.folders ≠ []) :
    _get_project_folder env = (Except.ok (env.folders.getLast h), []) := by
  unfold _get_project_folder
  rw [List.getLast?_eq_getLast env.folders h]

/-- Claim C5 witness: the spec's example folder list, with a file path and
a confirming user present to show neither is consulted. -/
theorem c5_witness :
    _get_project_folder ⟨["/a", "/b", "/c"], some "/elsewhere/f.feature",
        true⟩ = (Except.ok "/c", []) :=
  c5_last_folder _ (by decide)

/-- Claim C6: with no project folder and a saved active file, the selector
shows the informative dialog (opening the documentation URL exactly when
the user confirms) and returns the directory component of the file's path.
-/
theorem c6_fallback_to_file_dir (env : FolderEnv) (p : String)
    (hfo : env.folders = []) (hfn : env.fileName = some p) :
    _get_project_folder env =
      (Except.ok (op_split p).1,
       Event.okCancelDialog folderDialogMsg ::
         (if env.userConfirms then [Event.openUrl docsUrl] else [])) := by
  unfold _get_project_folder
  rw [hfo, hfn]
  rfl

/-- Claim C6 witness: the spec's example file path, with a confirming user.
-/
theorem c6_witness :
    _get_project_folder ⟨[], some "/home/user/proj/feature.feature", true⟩ =
      (Except.ok "/home/user/proj",
       [Event.okCancelDialog folderDialogMsg, Event.openUrl docsUrl]) := by
  rw [c6_fallback_to_file_dir ⟨[], some "/home/user/proj/feature.feature",
    true⟩ "/home/user/proj/feature.feature" rfl rfl,
    show (op_split "/home/user/proj/feature.feature").1 = "/home/user/proj"
      from by decide]
  rfl

/-- Claim C7: with streaming requested (and the working directory
resolved, its trace `evs` containing no panel events), the launcher's
trace is exactly one `erase` followed by one `append` per produced line,
in production order, each carrying the line verbatim; with streaming off
the trace is `evs` alone, so no erase or append ever occurs. -/
theorem c7_stream_events (env : LaunchEnv) (command : List String)
    (d : String) (evs : List Event)
    (hf : _get_project_folder env.folderEnv = (Except.ok d, evs)) :
    (_launch_process env command true).2 =
        evs ++ Event.erase :: env.producedLines.map Event.append ∧
      Event.erase ∉ evs ∧ (∀ s, Event.append s ∉ evs) ∧
      (_launch_process env command false).2 = evs := by
  have hn := folder_events_no_panel env.folderEnv
  rw [hf] at hn
  rw [launch_eq env command true d evs hf,
    launch_eq env command false d evs hf]
  exact ⟨by simp, hn.1, hn.2, by simp⟩

/-- Claim C7 witness: the spec's two-line example, streamed and not. -/
theorem c7_witness :
    (_launch_process ⟨⟨["/proj"], none, false⟩,
        ["Scenario: A\n", "Scenario: B\n"], false⟩ ["behave"] true).2 =
        [] ++ Event.erase ::
          List.map Event.append ["Scenario: A\n", "Scenario: B\n"] ∧
      Event.erase ∉ ([] : List Event) ∧
      (∀ s, Event.append s ∉ ([] : List Event)) ∧
      (_launch_process ⟨⟨["/proj"], none, false⟩,
        ["Scenario: A\n", "Scenario: B\n"], false⟩ ["behave"] false).2 =
        [] :=
  c7_stream_events _ ["behave"] "/proj" [] (by decide)

/-- Claim C8: when the resolver yields base vector `base`, the command
vector `behave` hands to the launcher is `buildCommand base args`: it
starts with `base`, and what follows is exactly the non-empty (truthy)
caller-supplied arguments, a subsequence of `args` in their original
order with nothing else altered. -/
theorem c8_command_vector (renv : ResolverEnv) (lenv : LaunchEnv)
    (args : List String) (ps : Bool) (base : List String) (evs : List Event)
    (h : behave_command renv = (Except.ok base, evs)) :
    (behave renv lenv args ps).1 =
        (_launch_process lenv (buildCommand base args) ps).1 ∧
      (buildCommand base args).take base.length = base ∧
      (buildCommand base args).drop base.length =
        args.filter (fun arg => arg ≠ "") ∧
      List.Sublist (args.filter (fun arg => arg ≠ "")) args ∧
      ∀ a, a ∈ args.filter (fun arg => arg ≠ "") → a ≠ "" := by
  refine ⟨?_, ?_, ?_, List.filter_sublist args, ?_⟩
  · unfold behave
    rw [h]
  · exact List.take_left base (args.filter (fun arg => arg ≠ ""))
  · exact List.drop_left base (args.filter (fun arg => arg ≠ ""))
  · intro a ha
    simp only [List.mem_filter, decide_eq_true_eq] at ha
    exact ha.2

/-- Claim C8 witness: a configured base with one empty and two non-empty
extra arguments. -/
theorem c8_witness :
    (behave ⟨some ["/usr/bin/behave"], none, none⟩
        ⟨⟨["/proj"], none, false⟩, ["ok\n"], false⟩
        ["--no-color", "", "features/a.feature"] false).1 =
        (_launch_process ⟨⟨["/proj"], none, false⟩, ["ok\n"], false⟩
          (buildCommand ["/usr/bin/behave"]
            ["--no-color", "", "features/a.feature"]) false).1 ∧
      (buildCommand ["/usr/bin/behave"]
          ["--no-color", "", "features/a.feature"]).take 1 =
        ["/usr/bin/behave"] ∧
      (buildCommand ["/usr/bin/behave"]
          ["--no-color", "", "features/a.feature"]).drop 1 =
        List.filter (fun arg => arg ≠ "")
          ["--no-color", "", "features/a.feature"] ∧
      List.Sublist
        (List.filter (fun arg => arg ≠ "")
          ["--no-color", "", "features/a.feature"])
        ["--no-color", "", "features/a.feature"] ∧
      ∀ a, a ∈ List.filter (fun arg => arg ≠ "")
          ["--no-color", "", "features/a.feature"] → a ≠ "" :=
  c8_command_vector ⟨some ["/usr/bin/behave"], none, none⟩
    ⟨⟨["/proj"], none, false⟩, ["ok\n"], false⟩
    ["--no-color", "", "features/a.feature"] false ["/usr/bin/behave"] []
    (by decide)

/-- Claim C9: with no project folder and a never-saved active file (the
source's `except AttributeError` branch), the selector's trace ends with
the save dialog followed by the `prompt_save_as` command — the user is
prompted to save before the directory computation runs — and that
computation then fails (the `finally:` block reads the never-assigned
local `file_path`), matching the spec's open question. -/
theorem c9_save_prompt (env : FolderEnv) (hfo : env.folders = [])
    (hfn : env.fileName = none) :
    (_get_project_folder env).2 =
        (Event.okCancelDialog folderDialogMsg ::
          (if env.userConfirms then [Event.openUrl docsUrl] else [])) ++
          [Event.okCancelDialog saveViewMsg, Event.promptSaveAs] ∧
      (_get_project_folder env).1 = Except.error BehaveError.unboundLocal := by
  unfold _get_project_folder
  rw [hfo, hfn]
  exact ⟨rfl, rfl⟩

/-- Claim C9 witness: empty folder list, never-saved file, user declining
the first dialog. -/
theorem c9_witness :
    (_get_project_folder ⟨[], none, false⟩).2 =
        [Event.okCancelDialog folderDialogMsg,
         Event.okCancelDialog saveViewMsg, Event.promptSaveAs] ∧
      (_get_project_folder ⟨[], none, false⟩).1 =
        Except.error BehaveError.unboundLocal := by
  have h := c9_save_prompt ⟨[], none, false⟩ rfl rfl
  simpa using h

/-- Claim C10: with streaming requested, `_launch_process` never fails
with the tool-configuration error, whatever lines the subprocess produced
(including lines beginning with `ConfigError`): the streamer thread has
exhausted stdout before `communicate()`, so the `re.match('ConfigError',
...)` check runs on the empty residual string and the call returns
`Except.ok ""`. -/
theorem c10_no_config_error_when_streaming (env : LaunchEnv)
    (command : List String) (d : String) (evs : List Event)
    (hf : _get_project_folder env.folderEnv = (Except.ok d, evs)) :
    (_launch_process env command true).1 = Except.ok "" ∧
      ∀ m s, (_launch_process env command true).1 ≠
        Except.error (BehaveError.configError m s) := by
  rw [launch_eq env command true d evs hf]
  refine ⟨by simp [re_match_nil], ?_⟩
  intro m s
  simp [re_match_nil]

/-- Claim C10 witness: the subprocess output does begin with the
`ConfigError` marker, yet the streaming launch succeeds with `""`. -/
theorem c10_witness :
    (_launch_process ⟨⟨["/proj"], none, false⟩,
        ["ConfigError: bad config\n"], false⟩ ["behave"] true).1 =
        Except.ok "" ∧
      ∀ m s, (_launch_process ⟨⟨["/proj"], none, false⟩,
        ["ConfigError: bad config\n"], false⟩ ["behave"] true).1 ≠
        Except.error (BehaveError.configError m s) :=
  c10_no_config_error_when_streaming _ ["behave"] "/proj" [] (by decide)
